/-
  Verification of the document-assembly logic of the kindroot backend
  (`backend/app/services/google_docs.py`).

  The embedding below translates `GoogleDocsService._build_report_content`
  and `GoogleDocsService.create_patient_report` into Lean.  Python dicts
  carrying optional string fields become records of `Option String`
  (Python truthiness of a string is "present and non-empty"); the batch
  requests become the inductive `Request`; the mutable `requests` list and
  `index` cursor become the state record `BState` threaded through the
  helper combinators `add_paragraph` / `add_link` / `add_table`, exactly
  as the nested Python helpers mutate them.

  The Python function crashes with `NameError: name 'cell_updates' is not
  defined` (line 642 of the source) whenever
  `actionable_steps['recommended_approaches']` is non-empty, after having
  appended the table and per-cell requests to the list.  The embedding
  makes that explicit: `build_report_content` returns the state reached
  at the moment the exception fires together with `some` of the error,
  and `none` on the (approach-free) path that returns normally.  The
  column-width requests of source lines 644-668 are unreachable (they sit
  after the raising line inside the same `if` block) and therefore do not
  occur in the embedding's traces.

  Floating-point rendering (`f"{rating:.1f}"`) is abstracted: the
  `rating` / `distance_miles` fields store the already-rendered digit
  string, since their text content is irrelevant to every claim.
-/
import Mathlib

namespace Kindroot

/-! ### Python string helpers -/

/-- Python truthiness of an optional string: `None` and `""` are falsy.
    Returns the value exactly when it is truthy. -/
def truthyStr (o : Option String) : Option String :=
  match o with
  | none => none
  | some s => if s.isEmpty then none else some s

/-- `a or b` where `a` is an optional string and `b` a string
    (e.g. `d.get('k') or 'N/A'`). -/
def orStr (a : Option String) (b : String) : String :=
  match truthyStr a with
  | some s => s
  | none => b

/-- Python truthiness of an optional int (`None` and `0` falsy). -/
def truthyNat (o : Option Nat) : Option Nat :=
  match o with
  | none => none
  | some n => if n = 0 then none else some n

/-- `'sep'.join(l)` -/
def pyJoin (sep : String) (l : List String) : String :=
  String.intercalate sep l

/-- `s.lower()`: ASCII lower-casing, character by character (the
    behaviour of `String.toLower`, written so that it reduces). -/
def pyLower (s : String) : String := ⟨s.data.map Char.toLower⟩

/-- `s.strip()`: drop leading and trailing whitespace (the behaviour of
    `String.trim`, written so that it reduces). -/
def pyStrip (s : String) : String :=
  ⟨((s.data.dropWhile Char.isWhitespace).reverse.dropWhile Char.isWhitespace).reverse⟩

/-! ### Edit-operation requests (`docs.batchUpdate` request dicts) -/

/-- Payload of an `updateTextStyle` request.  `linkStyle url` stands for
    `{link: {url}, foregroundColor: rgb(0,0,1), underline: true}` with
    `fields: 'link,foregroundColor,underline'`; `boldStyle` stands for
    `{bold: true}` with `fields: 'bold'`. -/
inductive TextStyle where
  | linkStyle (url : String)
  | boldStyle
  deriving DecidableEq, Repr

/-- One entry of the `requests` list built by `_build_report_content`.
    Each constructor carries the index/range it targets.
    `updateTableColumnProperties` (source lines 651-665) is dead code --
    those lines sit after the `NameError` raising line -- and is omitted:
    no execution of the source ever appends such a request. -/
inductive Request where
  | insertText (at_ : Nat) (text : String)
  | updateParagraphStyle (startIndex endIndex : Nat) (namedStyleType : String)
  | insertPageBreak (at_ : Nat)
  | updateTextStyle (startIndex endIndex : Nat) (style : TextStyle)
  | insertTable (at_ : Nat) (rows cols : Nat)
  deriving DecidableEq, Repr

/-! ### Builder state -/

/-- The mutable state of `_build_report_content`: the `requests` list
    (in append order), the cursor `index` (starts at 1, "after the
    title"), and the `heading2_sections` list used for the (disabled)
    table of contents. -/
structure BState where
  requests : List Request
  index : Nat
  heading2 : List (String × Nat)
  deriving DecidableEq, Repr

def initialState : BState := ⟨[], 1, []⟩

/-! ### The nested helpers of `_build_report_content` -/

/-- `add_paragraph(text, style="NORMAL_TEXT", index_offset=0,
    page_break_before=False)` (source lines 254-296). -/
def add_paragraph (text : String) (style : String)
    (index_offset : Nat) (page_break_before : Bool)
    (s : BState) : BState :=
  -- page break before, if requested
  let s :=
    if page_break_before then
      { s with
        requests := s.requests ++ [Request.insertPageBreak (s.index + index_offset)],
        index := s.index + 1 }
    else s
  let insert_index := s.index + index_offset
  let s := { s with
    requests := s.requests ++ [Request.insertText insert_index (text ++ "\n")] }
  let s :=
    if style ≠ "NORMAL_TEXT" then
      { s with
        requests := s.requests ++
          [Request.updateParagraphStyle insert_index (insert_index + text.length) style],
        heading2 :=
          if style = "HEADING_2" then s.heading2 ++ [(text, insert_index)]
          else s.heading2 }
    else s
  { s with index := s.index + text.length + 1 }

/-- `add_link(label, url)` (source lines 299-339). -/
def add_link (label url : String) (s : BState) : BState :=
  let insert_index := s.index
  let full_text := label ++ ": " ++ url ++ "\n"
  let url_start := insert_index + label.length + 2
  let url_end := url_start + url.length
  { s with
    requests := s.requests ++
      [Request.insertText insert_index full_text,
       Request.updateTextStyle url_start url_end (.linkStyle url)],
    index := s.index + full_text.length }

/-- `add_table(rows, cols)` (source lines 342-356); returns the starting
    index of the table.  (Defined in the source but the interventions
    table is inserted inline; kept because the spec's consumption claims
    cite it.) -/
def add_table (rows cols : Nat) (s : BState) : Nat × BState :=
  let table_start := s.index
  (table_start,
   { s with
     requests := s.requests ++ [Request.insertTable table_start rows cols],
     index := s.index + (rows * cols * 2 + 1) })

/-- `insert_table_cell_text` (source lines 359-365): its body is `pass`. -/
def insert_table_cell_text (_row _col : Nat) (_text : String)
    (_table_start : Nat) (s : BState) : BState := s

/-! ### Input data

The fields below are exactly the keys `_build_report_content` reads from
its dict arguments, with `Option` for keys that may be absent.  List
valued keys read with `.get(k, [])` (or passed through `or []`) are plain
`List`s, `none` standing for the absent/empty case collapses to `[]`. -/

/-- `patient_info` keys read by the function. -/
structure PatientInfo where
  date_submitted : Option String
  parent_name : Option String
  email : Option String
  zipcode : Option String
  patient_age : Option String
  age : Option String
  patient_sex : Option String
  gender : Option String
  diagnosis_status : Option String
  top_family_priorities : Option (List String)
  deriving DecidableEq, Repr

/-- One entry of `hyp['recommended_tests']`. -/
structure TestRec where
  name : Option String
  category : Option String
  order_type : Option String
  notes : Option String
  purchase_url : Option String
  deriving DecidableEq, Repr

/-- One entry of `hypotheses['hypotheses']`. -/
structure Hyp where
  name : Option String
  hypothesis : Option String
  rationale : Option String
  supporting_evidence : Option String
  talking_points : List String
  recommended_tests : List TestRec
  deriving DecidableEq, Repr

/-- The `hypotheses` argument. -/
structure Hypotheses where
  hypotheses : List Hyp
  uncertainties : List String
  next_steps : List String
  deriving DecidableEq, Repr

/-- One entry of `actionable_steps['recommended_approaches']`. -/
structure Approach where
  intervention_name : Option String
  why_this_may_help : Option String
  addresses_multiple_concerns : List String
  what_others_have_done : List String
  what_families_tracked : List String
  common_decision_points : List String
  considerations : List String
  deriving DecidableEq, Repr

/-- The `actionable_steps` argument. -/
structure ActionableSteps where
  implementation_guidance : Option String
  recommended_approaches : List Approach
  general_notes : List String
  deriving DecidableEq, Repr

/-- `summary_report['patient_location']` (none = absent or empty dict). -/
structure Location where
  city : Option String
  state : Option String
  zip_code : Option String
  deriving DecidableEq, Repr

/-- `summary_report['state_early_intervention_program']`. -/
structure EIProgram where
  website : Option String
  contact_phone : Option String
  contact_email : Option String
  deriving DecidableEq, Repr

/-- One provider record.  `rating` / `distance_miles` hold the digits the
    Python `:.1f` format would render (floating point is abstracted; no
    claim depends on these texts).  `none` models Python `None`. -/
structure Provider where
  name : Option String
  rating : Option String
  review_count : Option Nat
  distance_miles : Option String
  address : Option String
  phone : Option String
  website : Option String
  specialties : List String
  deriving DecidableEq, Repr

/-- `resources['summary_report']` (none = absent or empty/falsy dict). -/
structure SummaryReport where
  patient_location : Option Location
  search_radius_miles : Option String
  state_early_intervention_program : Option EIProgram
  pediatricians : List Provider
  behavioral_providers : List Provider
  speech_providers : List Provider
  additional_notes : List String
  deriving DecidableEq, Repr

/-- The `resources` argument. -/
structure ResourcesData where
  status : Option String
  reason : Option String
  message : Option String
  summary_report : Option SummaryReport
  deriving DecidableEq, Repr

/-- The five data arguments of `_build_report_content`.  `triage_result`
    is only read inside a commented-out block of the source, so it is an
    opaque dict (modelled as key/value pairs) that the builder ignores. -/
structure Inputs where
  patient_info : PatientInfo
  triage_result : List (String × String)
  hypotheses : Hypotheses
  actionable_steps : ActionableSteps
  resources : ResourcesData
  deriving DecidableEq, Repr

/-! ### The sections of `_build_report_content`, in source order

The source repeats a handful of idioms — `if field: add_paragraph(...)`,
`if field: add_link(...)`, bullet loops, numbered loops, and
"heading + loop + blank line" blocks.  They are factored into the
combinators below (semantically identical to inlining them). -/

/-- `x = d.get(k)` / `if x: add_paragraph(render(x))`. -/
def optPara (v : Option String) (render : String → String) (s : BState) : BState :=
  match v with
  | some x => add_paragraph (render x) "NORMAL_TEXT" 0 false s
  | none => s

/-- `x = d.get(k)` / `if x: add_link(label, x)`. -/
def optLink (label : String) (v : Option String) (s : BState) : BState :=
  match v with
  | some url => add_link label url s
  | none => s

/-- `for item in l: add_paragraph(f"• {item}")`. -/
def bulletList (l : List String) (s : BState) : BState :=
  l.foldl (fun s item => add_paragraph ("• " ++ item) "NORMAL_TEXT" 0 false s) s

/-- `for i, item in enumerate(l, 1): add_paragraph(f"{i}. {item}")`. -/
def numberedList (l : List String) (s : BState) : BState :=
  (List.enumFrom 1 l).foldl (fun s p =>
    add_paragraph (toString p.1 ++ ". " ++ p.2) "NORMAL_TEXT" 0 false s) s

/-- `if l: add_paragraph(title, style); bullets; add_paragraph("")`. -/
def bulletBlock (title style : String) (l : List String) (s : BState) : BState :=
  if l.isEmpty then s
  else
    let s := add_paragraph title style 0 false s
    let s := bulletList l s
    add_paragraph "" "NORMAL_TEXT" 0 false s

/-- `if l: add_paragraph(title, style); numbered items; add_paragraph("")`. -/
def numberedBlock (title style : String) (l : List String) (s : BState) : BState :=
  if l.isEmpty then s
  else
    let s := add_paragraph title style 0 false s
    let s := numberedList l s
    add_paragraph "" "NORMAL_TEXT" 0 false s

/-- Title and disclaimer block (source lines 367-375). -/
def titleBlock (s : BState) : BState :=
  let s := add_paragraph "Parent Report" "HEADING_1" 0 false s
  let s := add_paragraph "" "NORMAL_TEXT" 0 false s
  let s := add_paragraph "We are parents helping parents have productive conversations with their pediatricians." "NORMAL_TEXT" 0 false s
  let s := add_paragraph "" "NORMAL_TEXT" 0 false s
  let s := add_paragraph "What this is—and isn't: This report shares information and resources to discuss with your healthcare provider. It is not medical advice, a diagnosis, or a treatment plan." "NORMAL_TEXT" 0 false s
  let s := add_paragraph "" "NORMAL_TEXT" 0 false s
  let s := add_paragraph "What to know: Your kiddo is unique. What helps one child may not fit another, but we aim to find information from families with kids similar to yours. You'll see ideas from reputable clinical sources and from families who've been there. Use these insights to prepare for conversations with your child's clinician." "NORMAL_TEXT" 0 false s
  add_paragraph "" "NORMAL_TEXT" 0 false s

/-- `if top_priorities and isinstance(top_priorities, list) and
    len(top_priorities) > 0:` block (source lines 407-412). -/
def prioritiesBlock (v : Option (List String)) (s : BState) : BState :=
  match v with
  | some priorities =>
    if priorities.isEmpty then s
    else
      let s := add_paragraph "" "NORMAL_TEXT" 0 false s
      let s := add_paragraph "Top Family Priorities:" "NORMAL_TEXT" 0 false s
      bulletList priorities s
  | none => s

/-- Demographic information section (source lines 377-412). -/
def demographicsSection (pi : PatientInfo) (s : BState) : BState :=
  let s := add_paragraph "Your Information" "HEADING_2" 0 true s
  let s := optPara (truthyStr pi.date_submitted) (fun d => "Date Submitted: " ++ d) s
  let s := optPara (truthyStr pi.parent_name) (fun p => "Parent Name: " ++ p) s
  let s := optPara (truthyStr pi.email) (fun e => "Email: " ++ e) s
  let s := optPara (truthyStr pi.zipcode) (fun z => "Zipcode: " ++ z) s
  let s := add_paragraph "" "NORMAL_TEXT" 0 false s
  -- age = patient_info.get('patient_age') or patient_info.get('age', 'N/A')
  let ageV := orStr pi.patient_age (pi.age.getD "N/A")
  let sexV := orStr pi.patient_sex (pi.gender.getD "N/A")
  let diagV := pi.diagnosis_status.getD "N/A"
  let s := add_paragraph ("Child's Age: " ++ ageV) "NORMAL_TEXT" 0 false s
  let s := add_paragraph ("Sex: " ++ sexV) "NORMAL_TEXT" 0 false s
  let s := add_paragraph ("Diagnosis Status: " ++ diagV) "NORMAL_TEXT" 0 false s
  prioritiesBlock pi.top_family_priorities s

/-- The body of one recommended-test bullet (source lines 464-472). -/
def testEntry (t : TestRec) (s : BState) : BState :=
  let line := "• " ++ t.name.getD "Test"
  let line :=
    match truthyStr t.category with
    | some c => line ++ " — " ++ c
    | none => line
  let line :=
    if t.order_type = some "self_purchase" then line ++ " (at-home or self-purchase)"
    else if t.order_type = some "either" then line ++ " (order via clinician or self-purchase)"
    else line
  let line :=
    match truthyStr t.notes with
    | some n => line ++ " — " ++ n
    | none => line
  let s := add_paragraph line "NORMAL_TEXT" 0 false s
  optLink "Link" (truthyStr t.purchase_url) s

/-- `if tp:` block of a hypothesis entry (source lines 457-460). -/
def talkingPointsBlock (tp : List String) (s : BState) : BState :=
  if tp.isEmpty then s
  else
    let s := add_paragraph "Talking points for your pediatrician" "HEADING_4" 0 false s
    bulletList tp s

/-- `if tests:` block of a hypothesis entry (source lines 461-472). -/
def testsBlock (tests : List TestRec) (s : BState) : BState :=
  if tests.isEmpty then s
  else
    let s := add_paragraph "Recommended tests to discuss or consider" "HEADING_4" 0 false s
    tests.foldl (fun s t => testEntry t s) s

/-- The body of one hypothesis entry (source lines 450-473), `i` being
    the 1-based `enumerate` counter. -/
def hypEntry (i : Nat) (hyp : Hyp) (s : BState) : BState :=
  let title := orStr hyp.name (orStr hyp.hypothesis "Unknown")
  let s := add_paragraph (toString i ++ ". " ++ title) "HEADING_3" 0 false s
  let rationale := orStr hyp.rationale (orStr hyp.supporting_evidence "N/A")
  let s := add_paragraph ("Why this might fit (evidence): " ++ rationale) "NORMAL_TEXT" 0 false s
  let s := talkingPointsBlock hyp.talking_points s
  let s := testsBlock hyp.recommended_tests s
  add_paragraph "" "NORMAL_TEXT" 0 false s

/-- The loop over `hypotheses_list[:3]` (source line 450). -/
def hypothesesLoop (l : List Hyp) (s : BState) : BState :=
  (List.enumFrom 1 (l.take 3)).foldl (fun s p => hypEntry p.1 p.2 s) s

/-- Hypotheses section (source lines 445-491). -/
def hypothesesSection (h : Hypotheses) (s : BState) : BState :=
  let s := add_paragraph "Top 3 Potential Root Causes" "HEADING_2" 0 true s
  let s :=
    if h.hypotheses.isEmpty then
      let s := add_paragraph "No root causes available" "NORMAL_TEXT" 0 false s
      add_paragraph "" "NORMAL_TEXT" 0 false s
    else
      hypothesesLoop h.hypotheses s
  let s := numberedBlock "Uncertainties" "HEADING_3" h.uncertainties s
  numberedBlock "Recommended Next Steps" "HEADING_3" h.next_steps s

/-- `if impl_guidance:` block (source lines 499-503). -/
def guidanceBlock (v : Option String) (s : BState) : BState :=
  match v with
  | some g =>
    let s := add_paragraph "Getting Started" "HEADING_3" 0 false s
    let s := add_paragraph g "NORMAL_TEXT" 0 false s
    add_paragraph "" "NORMAL_TEXT" 0 false s
  | none => s

/-- Opening of the actionable-steps section (source lines 493-503). -/
def actionableIntro (a : ActionableSteps) (s : BState) : BState :=
  let s := add_paragraph "What Others Have Tried" "HEADING_2" 0 true s
  let s := add_paragraph "Based on the patterns identified above, here are approaches other families with similar situations have explored. This information is for discussion with your pediatrician—not medical advice. Always consult your care team before making changes." "NORMAL_TEXT" 0 false s
  let s := add_paragraph "" "NORMAL_TEXT" 0 false s
  guidanceBlock (truthyStr a.implementation_guidance) s

/-- The seven header texts of the interventions table (source lines
    531-539; note: seven headers although `num_cols` is 6). -/
def headersList : List String :=
  ["Intervention", "Why This May Help", "May Help With", "What Others Did",
   "What Families Tracked", "Decision Points", "Considerations"]

/-- Header-row requests (source lines 541-562): for column `ci`,
    `cell_index = table_start + 1 + (0 * num_cols + ci) * 2`, one
    `insertText` plus one bold `updateTextStyle`. -/
def headerCellOps (table_start : Nat) : List Request :=
  (headersList.enum).map (fun p =>
    let cell_index := table_start + 1 + p.1 * 2
    [Request.insertText cell_index p.2,
     Request.updateTextStyle cell_index (cell_index + p.2.length) .boldStyle])
  |>.flatten

/-- Requests of one data row (source lines 565-639); `num_cols = 6`,
    `row_idx` counts from 1, columns 0..6 are written (one more than the
    table has). -/
def dataRowOps (table_start row_idx : Nat) (iv : Approach) : List Request :=
  let cell := fun (col : Nat) => table_start + 1 + (row_idx * 6 + col) * 2
  let concerns_text :=
    if iv.addresses_multiple_concerns.isEmpty then "N/A"
    else pyJoin ", " iv.addresses_multiple_concerns
  let bulleted := fun (l : List String) =>
    if l.isEmpty then "N/A" else pyJoin "\n" (l.map (fun item => "• " ++ item))
  [Request.insertText (cell 0) (iv.intervention_name.getD "Unknown"),
   Request.insertText (cell 1) (iv.why_this_may_help.getD "N/A"),
   Request.insertText (cell 2) concerns_text,
   Request.insertText (cell 3) (bulleted iv.what_others_have_done),
   Request.insertText (cell 4) (bulleted iv.what_families_tracked),
   Request.insertText (cell 5) (bulleted iv.common_decision_points),
   Request.insertText (cell 6) (bulleted iv.considerations)]

/-- The interventions-table block (source lines 511-639): the
    `insertTable` request, the cursor advance by `rows*cols*2+1`, then
    the header-cell and data-cell requests.  The very next source line
    (642) raises `NameError`, making this the last state of the call. -/
def tablePart (approaches : List Approach) (s : BState) : BState :=
  let num_rows := approaches.length + 1
  let table_start_index := s.index
  { s with
    requests := s.requests
      ++ [Request.insertTable table_start_index num_rows 6]
      ++ headerCellOps table_start_index
      ++ ((List.enumFrom 1 approaches).map
            (fun p => dataRowOps table_start_index p.1 p.2)).flatten,
    index := table_start_index + num_rows * 6 * 2 + 1 }

/-- The whole `if approaches:` block up to the raising line (source
    lines 507-642). -/
def approachesBlock (approaches : List Approach) (s : BState) : BState :=
  let s := add_paragraph "Important: Discuss any new changes with your pediatrician" "NORMAL_TEXT" 0 false s
  let s := add_paragraph "" "NORMAL_TEXT" 0 false s
  tablePart approaches s

/-- General notes (source lines 671-676). -/
def generalNotesSection (notes : List String) (s : BState) : BState :=
  bulletBlock "Important Reminders" "HEADING_3" notes s

/-- The `f"Rating: ..."` text of a provider entry (source lines
    717-721 / 739-745 / 773-779): built by string appends, no state. -/
def ratingText (r : String) (review_count : Option Nat) : String :=
  let txt := "Rating: " ++ r ++ "/5.0"
  match truthyNat review_count with
  | some n => txt ++ " (" ++ toString n ++ " reviews)"
  | none => txt

/-- One pediatrician entry (source lines 716-729; ends with an empty
    paragraph, unlike the behavioral/speech entries). -/
def pedsEntry (i : Nat) (provider : Provider) (s : BState) : BState :=
  let s := add_paragraph (toString i ++ ". " ++ provider.name.getD "Unknown Provider") "HEADING_5" 0 false s
  -- `if rating is not None:` — a plain None test, not truthiness
  let s := optPara provider.rating (fun r => ratingText r provider.review_count) s
  let s := optPara provider.distance_miles (fun d => "Distance: " ++ d ++ " miles") s
  let s := add_paragraph ("Address: " ++ provider.address.getD "N/A") "NORMAL_TEXT" 0 false s
  let s := optPara (truthyStr provider.phone) (fun p => "Phone: " ++ p) s
  let s := optLink "Website" (truthyStr provider.website) s
  let s :=
    if provider.specialties.isEmpty then s
    else add_paragraph ("Specialties: " ++ pyJoin ", " provider.specialties) "NORMAL_TEXT" 0 false s
  add_paragraph "" "NORMAL_TEXT" 0 false s

/-- One behavioral/speech provider entry (source lines 736-763 and
    770-797; identical bodies, no trailing empty paragraph). -/
def providerEntry (i : Nat) (provider : Provider) (s : BState) : BState :=
  let s := add_paragraph (toString i ++ ". " ++ provider.name.getD "Unknown Provider") "HEADING_5" 0 false s
  let s := optPara provider.rating (fun r => ratingText r provider.review_count) s
  let s := optPara provider.distance_miles (fun d => "Distance: " ++ d ++ " miles") s
  let s := add_paragraph ("Address: " ++ provider.address.getD "N/A") "NORMAL_TEXT" 0 false s
  let s := optPara (truthyStr provider.phone) (fun p => "Phone: " ++ p) s
  let s := optLink "Website" (truthyStr provider.website) s
  if provider.specialties.isEmpty then s
  else add_paragraph ("Specialties: " ++ pyJoin ", " provider.specialties) "NORMAL_TEXT" 0 false s

/-- `if location:` block (source lines 692-697). -/
def locationBlock (v : Option Location) (radius : Option String) (s : BState) : BState :=
  match v with
  | some location =>
    let s := add_paragraph ("Location: " ++ location.city.getD "N/A" ++ ", "
      ++ location.state.getD "N/A" ++ " " ++ location.zip_code.getD "N/A") "NORMAL_TEXT" 0 false s
    let s := add_paragraph ("Search Radius: " ++ radius.getD "N/A" ++ " miles") "NORMAL_TEXT" 0 false s
    add_paragraph "" "NORMAL_TEXT" 0 false s
  | none => s

/-- `if ei_program:` block (source lines 700-709). -/
def eiBlock (v : Option EIProgram) (s : BState) : BState :=
  match v with
  | some ei =>
    let s := add_paragraph "State Early Intervention Program" "HEADING_4" 0 false s
    let s := optLink "Website" (truthyStr ei.website) s
    let s := optPara (truthyStr ei.contact_phone) (fun p => "Phone: " ++ p) s
    optPara (truthyStr ei.contact_email) (fun e => "Email: " ++ e) s
  | none => s

/-- `if <providers>:` heading-plus-loop of one provider category
    (source lines 712-715, 732-735, 766-769). -/
def providerCategory (title : String) (entry : Nat → Provider → BState → BState)
    (l : List Provider) (s : BState) : BState :=
  if l.isEmpty then s
  else
    let s := add_paragraph title "HEADING_4" 0 false s
    (List.enumFrom 1 l).foldl (fun s p => entry p.1 p.2 s) s

/-- `if diag_status in ("", "undiagnosed", "unknown", "none"):` block
    (source lines 799-804). -/
def evaluationBlock (diagnosis_status : Option String) (s : BState) : BState :=
  let diag_status := pyLower (pyStrip (orStr diagnosis_status ""))
  if diag_status = "" ∨ diag_status = "undiagnosed" ∨ diag_status = "unknown"
      ∨ diag_status = "none" then
    let s := add_paragraph "Where to Obtain a Diagnostic Evaluation" "HEADING_3" 0 false s
    let s := add_paragraph "If you do not yet have an evaluation, here is a place to get started:" "NORMAL_TEXT" 0 false s
    add_link "ADG Cares" "https://www.adgcares.com/" s
  else s

/-- The body of the non-skipped, non-error resources branch with a
    truthy `summary_report` (source lines 689-812). -/
def summaryReportSection (pi : PatientInfo) (sr : SummaryReport) (s : BState) : BState :=
  let s := locationBlock sr.patient_location sr.search_radius_miles s
  let s := eiBlock sr.state_early_intervention_program s
  let s := providerCategory "Pediatricians / Developmental Pediatrics" pedsEntry sr.pediatricians s
  let s := providerCategory "Behavioral Providers" providerEntry sr.behavioral_providers s
  let s := providerCategory "Speech Providers" providerEntry sr.speech_providers s
  let s := evaluationBlock pi.diagnosis_status s
  bulletBlock "Additional Notes" "HEADING_4" sr.additional_notes s

/-- Resources section (source lines 678-814). -/
def resourcesSection (pi : PatientInfo) (res : ResourcesData) (s : BState) : BState :=
  let s := add_paragraph "Local Resources" "HEADING_2" 0 true s
  if res.status = some "skipped" then
    add_paragraph ("Resource lookup skipped: " ++ res.reason.getD "No reason provided") "NORMAL_TEXT" 0 false s
  else if res.status = some "error" then
    add_paragraph ("Error generating resources: " ++ res.message.getD "Unknown error") "NORMAL_TEXT" 0 false s
  else
    match res.summary_report with
    | some sr => summaryReportSection pi sr s
    | none => add_paragraph "No resources available for this location" "NORMAL_TEXT" 0 false s

/-! ### `_build_report_content` itself -/

/-- Python exceptions the builder can raise. -/
inductive PyErr where
  | nameError (name : String)
  deriving DecidableEq, Repr

/-- `str(e)` for the exceptions above. -/
def PyErr.str : PyErr → String
  | .nameError n => "name '" ++ n ++ "' is not defined"

/-- `_build_report_content` (source lines 235-817).  Returns the builder
    state (its `requests` field is the list the Python function has
    appended to, in order) together with `none` when the function returns
    normally — the Python return value is then `(state.requests, [])`,
    the TOC list being always empty — or `some e` when it raises `e`.
    The raise happens at source line 642 (`requests.extend(reversed(
    cell_updates))`, `cell_updates` being bound nowhere), which is
    reached exactly when `recommended_approaches` is truthy. -/
def build_report_content (inp : Inputs) : BState × Option PyErr :=
  let s := titleBlock initialState
  let s := demographicsSection inp.patient_info s
  let s := hypothesesSection inp.hypotheses s
  let s := actionableIntro inp.actionable_steps s
  if inp.actionable_steps.recommended_approaches.isEmpty then
    let s := generalNotesSection inp.actionable_steps.general_notes s
    let s := resourcesSection inp.patient_info inp.resources s
    (s, none)
  else
    (approachesBlock inp.actionable_steps.recommended_approaches s,
     some (PyErr.nameError "cell_updates"))

/-! ### `create_patient_report` (source lines 154-233) -/

/-- FastAPI `HTTPException`. -/
structure HTTPError where
  status_code : Nat
  detail : String
  deriving DecidableEq, Repr

/-- The external Google Docs/Drive collaborator, abstracted as an oracle:
    each remote call either succeeds or raises (the error text standing
    for `str(e)`).  `create_patient_report` performs, in order, a Drive
    `files().create` (returning the document id), a `batchUpdate` with
    the built requests, and a `permissions().create`. -/
structure DocsService where
  createDoc : Except String String
  batchUpdate : List Request → Except String Unit
  createPermission : Except String Unit

/-- `create_patient_report` (source lines 154-233): everything runs in a
    `try`, and any exception is re-raised as
    `HTTPException(500, "Error creating Google Doc: " + str(e))`.
    On success the document URL is returned.  The second `batchUpdate`
    (TOC) is skipped because `toc_requests` is always `[]`. -/
def create_patient_report (svc : DocsService) (inp : Inputs) :
    Except HTTPError String :=
  match svc.createDoc with
  | .error e => .error ⟨500, "Error creating Google Doc: " ++ e⟩
  | .ok doc_id =>
    match build_report_content inp with
    | (_, some e) => .error ⟨500, "Error creating Google Doc: " ++ e.str⟩
    | (s, none) =>
      match svc.batchUpdate s.requests with
      | .error e => .error ⟨500, "Error creating Google Doc: " ++ e⟩
      | .ok _ =>
        match svc.createPermission with
        | .error e => .error ⟨500, "Error creating Google Doc: " ++ e⟩
        | .ok _ => .ok ("https://docs.google.com/document/d/" ++ doc_id ++ "/edit")

/-! ## Verification layer -/

/-- The buffer position an operation targets: its insertion index, or
    the start of its range. -/
def opOffset : Request → Nat
  | .insertText a _ => a
  | .updateParagraphStyle a _ _ => a
  | .insertPageBreak a => a
  | .updateTextStyle a _ _ => a
  | .insertTable a _ _ => a

/-- How many buffer positions an operation's insertion consumes:
    `len(text)` for `insertText` (the stored text already includes the
    `'\n'` the source appends), 1 for a page break, `rows*cols*2+1` for
    a table, 0 for pure styling. -/
def consume : Request → Nat
  | .insertText _ t => t.length
  | .insertPageBreak _ => 1
  | .insertTable _ r c => r * c * 2 + 1
  | _ => 0

/-- Number of `updateParagraphStyle` requests carrying the named style. -/
def styleCount (name : String) (reqs : List Request) : Nat :=
  reqs.countP (fun r => match r with
    | .updateParagraphStyle _ _ st => st == name
    | _ => false)

/-- The cursor invariant, as a relation between an emitted request list
    and the cursor: target offsets are non-decreasing in emission order,
    every emitted offset is at most the cursor, the cursor equals the
    start position 1 plus the total consumption, and (for the table-free
    sections) no `insertTable` has been emitted. -/
def InvRI (reqs : List Request) (idx : Nat) : Prop :=
  List.Pairwise (· ≤ ·) (reqs.map opOffset) ∧
  (∀ r ∈ reqs, opOffset r ≤ idx) ∧
  idx = 1 + (reqs.map consume).sum ∧
  (∀ a rws cls, Request.insertTable a rws cls ∉ reqs)

def Inv (s : BState) : Prop := InvRI s.requests s.index

/-- `f` preserves the cursor invariant. -/
def PresInv (f : BState → BState) : Prop := ∀ s, Inv s → Inv (f s)

theorem inv_initialState : Inv initialState := by
  refine ⟨by simp [initialState], by simp [initialState], by simp [initialState],
    by simp [initialState]⟩

/-- Appending a block of requests whose offsets are sorted, at least the
    current cursor, at most the advanced cursor, whose consumption sums
    to the advance, and which contains no table, preserves the
    invariant. -/
theorem InvRI.extend {reqs : List Request} {idx : Nat} (h : InvRI reqs idx)
    (t : List Request) (d : Nat)
    (hPair : List.Pairwise (· ≤ ·) (t.map opOffset))
    (hlow : ∀ r ∈ t, idx ≤ opOffset r)
    (hhigh : ∀ r ∈ t, opOffset r ≤ idx + d)
    (hsum : (t.map consume).sum = d)
    (hnt : ∀ a rws cls, Request.insertTable a rws cls ∉ t) :
    InvRI (reqs ++ t) (idx + d) := by
  obtain ⟨hp, hb, hs, htab⟩ := h
  refine ⟨?_, ?_, ?_, ?_⟩
  · rw [List.map_append, List.pairwise_append]
    refine ⟨hp, hPair, ?_⟩
    intro a ha b hb'
    obtain ⟨ra, hra, rfl⟩ := List.mem_map.1 ha
    obtain ⟨rb, hrb, rfl⟩ := List.mem_map.1 hb'
    exact le_trans (hb ra hra) (hlow rb hrb)
  · intro r hr
    rcases List.mem_append.1 hr with h' | h'
    · exact le_trans (hb r h') (Nat.le_add_right _ _)
    · exact hhigh r h'
  · rw [List.map_append, List.sum_append, hsum]
    omega
  · intro a rws cls hmem
    rcases List.mem_append.1 hmem with h' | h'
    · exact htab a rws cls h'
    · exact hnt a rws cls h'

theorem length_colon_space : (": " : String).length = 2 := rfl

theorem length_newline : ("\n" : String).length = 1 := rfl

/-! ### Characterizations of the three emitting helpers -/

/-- The requests `add_paragraph` appends when entered at cursor `i`. -/
def paraOps (t st : String) (pb : Bool) (i : Nat) : List Request :=
  (if pb then [Request.insertPageBreak i] else []) ++
  [Request.insertText (i + (if pb then 1 else 0)) (t ++ "\n")] ++
  (if st ≠ "NORMAL_TEXT" then
    [Request.updateParagraphStyle (i + (if pb then 1 else 0))
      (i + (if pb then 1 else 0) + t.length) st]
   else [])

theorem add_paragraph_requests (t st : String) (pb : Bool) (s : BState) :
    (add_paragraph t st 0 pb s).requests = s.requests ++ paraOps t st pb s.index := by
  by_cases hst : st = "NORMAL_TEXT" <;> cases pb <;>
    simp [add_paragraph, paraOps, hst]

theorem add_paragraph_index (t st : String) (pb : Bool) (s : BState) :
    (add_paragraph t st 0 pb s).index
      = s.index + ((if pb then 1 else 0) + (t.length + 1)) := by
  by_cases hst : st = "NORMAL_TEXT" <;> cases pb <;>
    simp [add_paragraph, hst] <;> omega

/-- The two requests `add_link` appends when entered at cursor `i`. -/
def linkOps (label url : String) (i : Nat) : List Request :=
  [Request.insertText i (label ++ ": " ++ url ++ "\n"),
   Request.updateTextStyle (i + label.length + 2) (i + label.length + 2 + url.length)
     (.linkStyle url)]

theorem add_link_requests (label url : String) (s : BState) :
    (add_link label url s).requests = s.requests ++ linkOps label url s.index := by
  simp [add_link, linkOps]

theorem add_link_index (label url : String) (s : BState) :
    (add_link label url s).index
      = s.index + (label.length + 2 + url.length + 1) := by
  simp [add_link, String.length_append, length_colon_space, length_newline]

/-! ### Invariant preservation for the combinators -/

theorem presInv_add_paragraph (t st : String) (pb : Bool) :
    PresInv (add_paragraph t st 0 pb) := by
  intro s h
  have hr := add_paragraph_requests t st pb s
  have hi := add_paragraph_index t st pb s
  unfold Inv at h ⊢
  rw [hr, hi]
  refine h.extend _ _ ?_ ?_ ?_ ?_ ?_ <;>
    by_cases hst : st = "NORMAL_TEXT" <;> cases pb <;>
      simp [paraOps, opOffset, consume, hst, String.length_append, length_newline]

theorem presInv_add_link (label url : String) : PresInv (add_link label url) := by
  intro s h
  have hr := add_link_requests label url s
  have hi := add_link_index label url s
  unfold Inv at h ⊢
  rw [hr, hi]
  refine h.extend _ _ ?_ ?_ ?_ ?_ ?_ <;>
    simp [linkOps, opOffset, consume, String.length_append, length_colon_space,
      length_newline] <;> omega

theorem presInv_optPara (v : Option String) (rend : String → String) :
    PresInv (optPara v rend) := by
  intro s h
  cases v with
  | none => exact h
  | some x => exact presInv_add_paragraph _ _ _ s h

theorem presInv_optLink (label : String) (v : Option String) :
    PresInv (optLink label v) := by
  intro s h
  cases v with
  | none => exact h
  | some u => exact presInv_add_link _ _ s h

theorem presInv_foldl {α : Type} (f : BState → α → BState)
    (hf : ∀ a, PresInv (fun s => f s a)) (l : List α) :
    PresInv (fun s => l.foldl f s) := by
  intro s h
  induction l generalizing s with
  | nil => simpa using h
  | cons a l ih => simpa using ih _ (hf a s h)

theorem presInv_bulletList (l : List String) : PresInv (bulletList l) := by
  intro s h
  unfold bulletList
  exact presInv_foldl _ (fun item => presInv_add_paragraph _ _ _) l s h

theorem presInv_numberedList (l : List String) : PresInv (numberedList l) := by
  intro s h
  unfold numberedList
  exact presInv_foldl _ (fun p : Nat × String => presInv_add_paragraph _ _ _) _ s h

theorem presInv_bulletBlock (title style : String) (l : List String) :
    PresInv (bulletBlock title style l) := by
  intro s h
  unfold bulletBlock
  split
  · exact h
  · exact presInv_add_paragraph _ _ _ _
      (presInv_bulletList _ _ (presInv_add_paragraph _ _ _ _ h))

theorem presInv_numberedBlock (title style : String) (l : List String) :
    PresInv (numberedBlock title style l) := by
  intro s h
  unfold numberedBlock
  split
  · exact h
  · exact presInv_add_paragraph _ _ _ _
      (presInv_numberedList _ _ (presInv_add_paragraph _ _ _ _ h))

/-! ### Invariant preservation, section by section -/

theorem presInv_titleBlock : PresInv titleBlock := by
  intro s h
  unfold titleBlock
  exact presInv_add_paragraph _ _ _ _ (presInv_add_paragraph _ _ _ _
    (presInv_add_paragraph _ _ _ _ (presInv_add_paragraph _ _ _ _
    (presInv_add_paragraph _ _ _ _ (presInv_add_paragraph _ _ _ _
    (presInv_add_paragraph _ _ _ _ (presInv_add_paragraph _ _ _ _ h)))))))

theorem presInv_prioritiesBlock (v : Option (List String)) :
    PresInv (prioritiesBlock v) := by
  intro s h
  cases v with
  | none => exact h
  | some priorities =>
    by_cases hp : priorities.isEmpty
    · simpa [prioritiesBlock, hp] using h
    · simp only [prioritiesBlock, if_neg hp]
      exact presInv_bulletList _ _
        (presInv_add_paragraph _ _ _ _ (presInv_add_paragraph _ _ _ _ h))

theorem presInv_demographicsSection (pi : PatientInfo) :
    PresInv (demographicsSection pi) := by
  intro s h
  unfold demographicsSection
  exact presInv_prioritiesBlock _ _ (presInv_add_paragraph _ _ _ _
    (presInv_add_paragraph _ _ _ _ (presInv_add_paragraph _ _ _ _
    (presInv_add_paragraph _ _ _ _ (presInv_optPara _ _ _
    (presInv_optPara _ _ _ (presInv_optPara _ _ _ (presInv_optPara _ _ _
    (presInv_add_paragraph _ _ _ _ h)))))))))

theorem presInv_testEntry (t : TestRec) : PresInv (fun s => testEntry t s) := by
  intro s h
  unfold testEntry
  exact presInv_optLink _ _ _ (presInv_add_paragraph _ _ _ _ h)

theorem presInv_talkingPointsBlock (tp : List String) :
    PresInv (talkingPointsBlock tp) := by
  intro s h
  unfold talkingPointsBlock
  split
  · exact h
  · exact presInv_bulletList _ _ (presInv_add_paragraph _ _ _ _ h)

theorem presInv_testsBlock (tests : List TestRec) : PresInv (testsBlock tests) := by
  intro s h
  unfold testsBlock
  split
  · exact h
  · exact presInv_foldl _ (fun t => presInv_testEntry t) tests _
      (presInv_add_paragraph _ _ _ _ h)


theorem presInv_hypEntry (i : Nat) (hyp : Hyp) : PresInv (hypEntry i hyp) := by
  intro s h
  unfold hypEntry
  exact presInv_add_paragraph _ _ _ _ (presInv_testsBlock _ _
    (presInv_talkingPointsBlock _ _ (presInv_add_paragraph _ _ _ _
    (presInv_add_paragraph _ _ _ _ h))))

theorem presInv_hypothesesLoop (l : List Hyp) : PresInv (hypothesesLoop l) := by
  intro s h
  unfold hypothesesLoop
  exact presInv_foldl _ (fun p : Nat × Hyp => presInv_hypEntry p.1 p.2) _ s h

theorem presInv_hypothesesSection (hy : Hypotheses) :
    PresInv (hypothesesSection hy) := by
  intro s h
  unfold hypothesesSection
  apply presInv_numberedBlock
  apply presInv_numberedBlock
  split
  · exact presInv_add_paragraph _ _ _ _ (presInv_add_paragraph _ _ _ _
      (presInv_add_paragraph _ _ _ _ h))
  · exact presInv_hypothesesLoop _ _ (presInv_add_paragraph _ _ _ _ h)

theorem presInv_guidanceBlock (v : Option String) : PresInv (guidanceBlock v) := by
  intro s h
  cases v with
  | none => exact h
  | some g =>
    exact presInv_add_paragraph _ _ _ _ (presInv_add_paragraph _ _ _ _
      (presInv_add_paragraph _ _ _ _ h))

theorem presInv_actionableIntro (a : ActionableSteps) :
    PresInv (actionableIntro a) := by
  intro s h
  unfold actionableIntro
  exact presInv_guidanceBlock _ _ (presInv_add_paragraph _ _ _ _
    (presInv_add_paragraph _ _ _ _ (presInv_add_paragraph _ _ _ _ h)))

theorem presInv_generalNotesSection (notes : List String) :
    PresInv (generalNotesSection notes) := by
  intro s h
  exact presInv_bulletBlock _ _ _ _ h

theorem presInv_pedsEntry (i : Nat) (p : Provider) : PresInv (pedsEntry i p) := by
  intro s h
  unfold pedsEntry
  apply presInv_add_paragraph
  split
  · exact presInv_optLink _ _ _ (presInv_optPara _ _ _
      (presInv_add_paragraph _ _ _ _ (presInv_optPara _ _ _
      (presInv_optPara _ _ _ (presInv_add_paragraph _ _ _ _ h)))))
  · exact presInv_add_paragraph _ _ _ _ (presInv_optLink _ _ _
      (presInv_optPara _ _ _ (presInv_add_paragraph _ _ _ _
      (presInv_optPara _ _ _ (presInv_optPara _ _ _
      (presInv_add_paragraph _ _ _ _ h))))))

theorem presInv_providerEntry (i : Nat) (p : Provider) :
    PresInv (providerEntry i p) := by
  intro s h
  unfold providerEntry
  split
  · exact presInv_optLink _ _ _ (presInv_optPara _ _ _
      (presInv_add_paragraph _ _ _ _ (presInv_optPara _ _ _
      (presInv_optPara _ _ _ (presInv_add_paragraph _ _ _ _ h)))))
  · exact presInv_add_paragraph _ _ _ _ (presInv_optLink _ _ _
      (presInv_optPara _ _ _ (presInv_add_paragraph _ _ _ _
      (presInv_optPara _ _ _ (presInv_optPara _ _ _
      (presInv_add_paragraph _ _ _ _ h))))))

theorem presInv_locationBlock (v : Option Location) (radius : Option String) :
    PresInv (locationBlock v radius) := by
  intro s h
  cases v with
  | none => exact h
  | some location =>
    exact presInv_add_paragraph _ _ _ _ (presInv_add_paragraph _ _ _ _
      (presInv_add_paragraph _ _ _ _ h))

theorem presInv_eiBlock (v : Option EIProgram) : PresInv (eiBlock v) := by
  intro s h
  cases v with
  | none => exact h
  | some ei =>
    exact presInv_optPara _ _ _ (presInv_optPara _ _ _
      (presInv_optLink _ _ _ (presInv_add_paragraph _ _ _ _ h)))

theorem presInv_providerCategory (title : String)
    (entry : Nat → Provider → BState → BState)
    (hentry : ∀ i p, PresInv (entry i p)) (l : List Provider) :
    PresInv (providerCategory title entry l) := by
  intro s h
  unfold providerCategory
  split
  · exact h
  · exact presInv_foldl _ (fun p : Nat × Provider => hentry p.1 p.2) _ _
      (presInv_add_paragraph _ _ _ _ h)

theorem presInv_evaluationBlock (d : Option String) :
    PresInv (evaluationBlock d) := by
  intro s h
  simp only [evaluationBlock]
  split
  · exact presInv_add_link _ _ _ (presInv_add_paragraph _ _ _ _
      (presInv_add_paragraph _ _ _ _ h))
  · exact h

theorem presInv_summaryReportSection (pi : PatientInfo) (sr : SummaryReport) :
    PresInv (summaryReportSection pi sr) := by
  intro s h
  unfold summaryReportSection
  exact presInv_bulletBlock _ _ _ _ (presInv_evaluationBlock _ _
    (presInv_providerCategory _ _ presInv_providerEntry _ _
    (presInv_providerCategory _ _ presInv_providerEntry _ _
    (presInv_providerCategory _ _ presInv_pedsEntry _ _
    (presInv_eiBlock _ _ (presInv_locationBlock _ _ _ h))))))

theorem presInv_resourcesSection (pi : PatientInfo) (res : ResourcesData) :
    PresInv (resourcesSection pi res) := by
  intro s h
  unfold resourcesSection
  split
  · exact presInv_add_paragraph _ _ _ _ (presInv_add_paragraph _ _ _ _ h)
  · split
    · exact presInv_add_paragraph _ _ _ _ (presInv_add_paragraph _ _ _ _ h)
    · have h1 := presInv_add_paragraph "Local Resources" "HEADING_2" true s h
      cases hsr : res.summary_report with
      | some sr => simpa [hsr] using presInv_summaryReportSection pi sr _ h1
      | none => simpa [hsr] using presInv_add_paragraph _ _ _ _ h1

/-- The invariant holds at the end of every normally-returning call of
    `_build_report_content`. -/
theorem inv_build_report_content (inp : Inputs)
    (h : (build_report_content inp).2 = none) :
    Inv (build_report_content inp).1 := by
  unfold build_report_content at h ⊢
  split at h
  · next hemp =>
    simp only [hemp, if_true]
    exact presInv_resourcesSection _ _ _
      (presInv_generalNotesSection _ _
      (presInv_actionableIntro _ _
      (presInv_hypothesesSection _ _
      (presInv_demographicsSection _ _
      (presInv_titleBlock _ inv_initialState)))))
  · simp at h


/-! ## Concrete inputs used by witnesses and counterexamples -/

/-- All-absent patient info. -/
def piNone : PatientInfo := ⟨none, none, none, none, none, none, none, none, none, none⟩

def hypNone : Hypotheses := ⟨[], [], []⟩

def actNone : ActionableSteps := ⟨none, [], []⟩

def resNone : ResourcesData := ⟨none, none, none, none⟩

/-- Minimal input: every optional field absent, every list empty. -/
def inpMin : Inputs := ⟨piNone, [], hypNone, actNone, resNone⟩

/-- One recommended intervention with all-absent fields. -/
def ap0 : Approach := ⟨none, none, [], [], [], [], []⟩

/-- Minimal input except for one recommended intervention approach. -/
def inpOneAp : Inputs := ⟨piNone, [], hypNone, ⟨none, [ap0], []⟩, resNone⟩

/-- A provider record with all-absent fields. -/
def provNone : Provider := ⟨none, none, none, none, none, none, none, []⟩

/-- A summary report carrying six pediatrician records. -/
def srSixPeds : SummaryReport :=
  ⟨none, none, none, [provNone, provNone, provNone, provNone, provNone, provNone], [], [], []⟩

/-- Minimal input except for six pediatricians in the resources. -/
def inpSixPeds : Inputs := ⟨piNone, [], hypNone, actNone, ⟨none, none, none, some srSixPeds⟩⟩

/-- An oracle on which every remote call succeeds. -/
def svcOk : DocsService := ⟨.ok "doc1", fun _ => .ok (), .ok ()⟩

/-! ## Basic facts about the builder result -/

/-- The builder raises exactly when `recommended_approaches` is truthy. -/
theorem build_report_content_snd (inp : Inputs) :
    (build_report_content inp).2
      = if inp.actionable_steps.recommended_approaches.isEmpty then none
        else some (PyErr.nameError "cell_updates") := by
  unfold build_report_content
  split <;> simp_all

/-! ## The claims -/

/-- C4: compilation is deterministic — `_build_report_content` (and the
    request batch `create_patient_report` submits) is a pure function of
    the five data arguments and depends on no external state: two calls
    on equal inputs produce identical request lists, identical predicted
    table offsets (they are part of the requests) and identical results. -/
theorem c4_determinism (inp inp' : Inputs) (h : inp = inp') :
    build_report_content inp = build_report_content inp' ∧
    ∀ svc : DocsService, create_patient_report svc inp = create_patient_report svc inp' := by
  subst h
  exact ⟨rfl, fun _ => rfl⟩

/-- C4 witness at a concrete input. -/
theorem c4_determinism_witness :
    build_report_content inpMin = build_report_content inpMin ∧
    ∀ svc : DocsService, create_patient_report svc inpMin = create_patient_report svc inpMin :=
  c4_determinism inpMin inpMin rfl

/-- C5: `add_link` at cursor `P` emits exactly one `insertText` with
    `"label: url"` (plus terminator) at `P` followed by one
    `updateTextStyle` (link + color + underline) ranging exactly over
    `[P + len(label) + 2, P + len(label) + 2 + len(url))`; and for
    `label="Website"`, `url="https://x.test"` at `P = 10` that range is
    `[19, 33)`. -/
theorem c5_link_style_range :
    (∀ (label url : String) (s : BState),
      (add_link label url s).requests
        = s.requests ++
          [Request.insertText s.index (label ++ ": " ++ url ++ "\n"),
           Request.updateTextStyle (s.index + label.length + 2)
             (s.index + label.length + 2 + url.length) (.linkStyle url)] ∧
      (add_link label url s).index = s.index + (label.length + 2 + url.length + 1)) ∧
    ∀ s : BState, s.index = 10 →
      (add_link "Website" "https://x.test" s).requests
        = s.requests ++
          [Request.insertText 10 "Website: https://x.test\n",
           Request.updateTextStyle 19 33 (.linkStyle "https://x.test")] := by
  constructor
  · exact fun label url s => ⟨add_link_requests label url s, add_link_index label url s⟩
  · intro s h10
    rw [add_link_requests, h10]
    rfl

/-- C5 witness: the concrete `P = 10` instance. -/
theorem c5_link_style_range_witness :
    (add_link "Website" "https://x.test" ⟨[], 10, []⟩).requests
      = [Request.insertText 10 "Website: https://x.test\n",
         Request.updateTextStyle 19 33 (.linkStyle "https://x.test")] := by
  simpa using c5_link_style_range.2 ⟨[], 10, []⟩ rfl

/-- C6: inserting a table of `r` rows and `c` columns advances the
    cursor by exactly `r*c*2 + 1` — both in the `add_table` helper and in
    the inline interventions-table block (where `r = len(approaches)+1`,
    `c = 6`) — and a 6×2 table advances it by exactly 25. -/
theorem c6_table_consumption :
    (∀ (rows cols : Nat) (s : BState),
      (add_table rows cols s).1 = s.index ∧
      (add_table rows cols s).2.index = s.index + (rows * cols * 2 + 1)) ∧
    (∀ s : BState, (add_table 6 2 s).2.index = s.index + 25) ∧
    (∀ (aps : List Approach) (s : BState),
      (tablePart aps s).index = s.index + ((aps.length + 1) * 6 * 2 + 1)) := by
  refine ⟨fun rows cols s => ⟨rfl, rfl⟩, fun s => rfl, fun aps s => ?_⟩
  simp [tablePart]
  omega

/-- C2: whenever `recommended_approaches` is a non-empty list, the
    builder raises `NameError` over the unbound `cell_updates` name, so
    `create_patient_report` (which wraps everything in one `try`) can
    only rethrow `HTTPException(500, ...)`: with a healthy document
    service the detail text is exactly the wrapped `NameError` message,
    and under any service behaviour the result is some 500 error. -/
theorem c2_name_error (inp : Inputs)
    (h : inp.actionable_steps.recommended_approaches ≠ []) :
    (build_report_content inp).2 = some (PyErr.nameError "cell_updates") ∧
    (∀ svc : DocsService, ∀ doc_id, svc.createDoc = .ok doc_id →
      create_patient_report svc inp
        = .error ⟨500, "Error creating Google Doc: name 'cell_updates' is not defined"⟩) ∧
    (∀ svc : DocsService, ∃ d, create_patient_report svc inp = .error ⟨500, d⟩) := by
  have hsnd : (build_report_content inp).2 = some (PyErr.nameError "cell_updates") := by
    rw [build_report_content_snd]
    simp [h]
  refine ⟨hsnd, ?_, ?_⟩
  · intro svc doc_id hdoc
    unfold create_patient_report
    rw [hdoc]
    rcases hbr : build_report_content inp with ⟨bs, be⟩
    rw [hbr] at hsnd
    simp at hsnd
    subst hsnd
    rfl
  · intro svc
    unfold create_patient_report
    rcases hdoc : svc.createDoc with e | doc_id
    · exact ⟨_, rfl⟩
    · rcases hbr : build_report_content inp with ⟨bs, be⟩
      rw [hbr] at hsnd
      simp at hsnd
      subst hsnd
      exact ⟨_, rfl⟩

/-- C2 witness: the one-intervention input with the healthy oracle. -/
theorem c2_name_error_witness :
    inpOneAp.actionable_steps.recommended_approaches ≠ [] ∧
    create_patient_report svcOk inpOneAp
      = .error ⟨500, "Error creating Google Doc: name 'cell_updates' is not defined"⟩ := by
  have h : inpOneAp.actionable_steps.recommended_approaches ≠ [] := by
    simp [inpOneAp]
  exact ⟨h, (c2_name_error inpOneAp h).2.1 svcOk "doc1" rfl⟩

/-- C9 counterexample: the claim "per-table population errors degrade
    gracefully: the caller still receives a successfully generated
    document plus a list of unpopulated tables" is false — populating
    the single interventions table fails (the `NameError`), and the call
    surfaces it as a hard 500 failure, with no document and no list. -/
theorem c9_counterexample :
    create_patient_report svcOk inpOneAp
      = .error ⟨500, "Error creating Google Doc: name 'cell_updates' is not defined"⟩ := by
  rfl

/-- C9 amended: a table-population failure is surfaced as a hard failure
    of the whole call — a successful `create_patient_report` is possible
    only when there is no interventions table at all (no recommended
    approaches), and its success value is a bare URL string with no
    failed-table list. -/
theorem c9_amended (svc : DocsService) (inp : Inputs) (url : String)
    (h : create_patient_report svc inp = .ok url) :
    inp.actionable_steps.recommended_approaches = [] := by
  unfold create_patient_report at h
  rcases hdoc : svc.createDoc with e | doc_id <;> rw [hdoc] at h
  · simp at h
  · rcases hbr : build_report_content inp with ⟨bs, be⟩
    rw [hbr] at h
    have hsnd := build_report_content_snd inp
    rw [hbr] at hsnd
    cases be with
    | some e => simp at h
    | none =>
      by_cases hemp : inp.actionable_steps.recommended_approaches.isEmpty
      · simpa [List.isEmpty_iff] using hemp
      · rw [if_neg hemp] at hsnd
        simp at hsnd

/-- C9 amended witness: a successful call on the approach-free input. -/
theorem c9_amended_witness :
    create_patient_report svcOk inpMin = .ok "https://docs.google.com/document/d/doc1/edit" ∧
    inpMin.actionable_steps.recommended_approaches = [] :=
  ⟨rfl, c9_amended svcOk inpMin "https://docs.google.com/document/d/doc1/edit" rfl⟩



/-! ## C1 and C3 -/

/-- `enumerate(headers)` of the seven header texts, computed. -/
theorem headersList_enum :
    headersList.enum
      = [(0, "Intervention"), (1, "Why This May Help"), (2, "May Help With"),
         (3, "What Others Did"), (4, "What Families Tracked"), (5, "Decision Points"),
         (6, "Considerations")] := rfl

/-- The interventions block always contains the `insertTable` request for
    `len(approaches)+1` rows by 6 columns at the predicted start, and a
    cell-content `insertText` at the predicted first-cell position
    (one past the table start). -/
theorem approachesBlock_table_mem (aps : List Approach) (s : BState) :
    ∃ ts, Request.insertTable ts (aps.length + 1) 6 ∈ (approachesBlock aps s).requests ∧
      Request.insertText (ts + 1) "Intervention" ∈ (approachesBlock aps s).requests := by
  refine ⟨(add_paragraph "" "NORMAL_TEXT" 0 false
    (add_paragraph "Important: Discuss any new changes with your pediatrician"
      "NORMAL_TEXT" 0 false s)).index, ?_, ?_⟩ <;>
    simp [approachesBlock, tablePart, headerCellOps, headersList_enum]

set_option maxRecDepth 8000 in
/-- C1 counterexample: at the one-intervention input the builder's
    emitted operations do contain a cell-content `insertText` addressed
    strictly inside the inserted table's predicted range (the predicted
    offset arithmetic `table_start + 1 + (row*cols+col)*2` is used
    directly as insertion target). -/
theorem c1_counterexample :
    Request.insertTable 1042 2 6 ∈ (build_report_content inpOneAp).1.requests ∧
    Request.insertText 1043 "Intervention" ∈ (build_report_content inpOneAp).1.requests ∧
    1042 < 1043 ∧ 1043 < 1042 + (2 * 6 * 2 + 1) := by
  refine ⟨by decide, by decide, by omega, by omega⟩

/-- C1 amended: only on inputs without recommended approaches does the
    emitted list contain no table (and hence no cell-content operation);
    whenever approaches are present, the single compilation pass itself
    emits cell-content `insertText` operations addressed inside the
    table's range at predicted offsets (and then dies with `NameError`
    before returning). -/
theorem c1_amended :
    (∀ inp : Inputs, inp.actionable_steps.recommended_approaches = [] →
      ∀ a r c, Request.insertTable a r c ∉ (build_report_content inp).1.requests) ∧
    (∀ inp : Inputs, inp.actionable_steps.recommended_approaches ≠ [] →
      ∃ ts,
        Request.insertTable ts
          (inp.actionable_steps.recommended_approaches.length + 1) 6
          ∈ (build_report_content inp).1.requests ∧
        Request.insertText (ts + 1) "Intervention"
          ∈ (build_report_content inp).1.requests ∧
        ts < ts + 1 ∧
        ts + 1 < ts + ((inp.actionable_steps.recommended_approaches.length + 1) * 6 * 2 + 1)) := by
  constructor
  · intro inp hemp a r c
    have h2 : (build_report_content inp).2 = none := by
      rw [build_report_content_snd]
      simp [hemp]
    obtain ⟨_, _, _, hnt⟩ := inv_build_report_content inp h2
    exact hnt a r c
  · intro inp hne
    have hemp : ¬ inp.actionable_steps.recommended_approaches.isEmpty := by
      simpa [List.isEmpty_iff] using hne
    unfold build_report_content
    rw [if_neg hemp]
    obtain ⟨ts, h1, h2⟩ := approachesBlock_table_mem
      inp.actionable_steps.recommended_approaches
      (actionableIntro inp.actionable_steps
        (hypothesesSection inp.hypotheses
          (demographicsSection inp.patient_info (titleBlock initialState))))
    exact ⟨ts, h1, h2, by omega, by omega⟩

/-- C1 amended witness: both branches at concrete inputs. -/
theorem c1_amended_witness :
    (∀ a r c, Request.insertTable a r c ∉ (build_report_content inpMin).1.requests) ∧
    ∃ ts,
      Request.insertTable ts (inpOneAp.actionable_steps.recommended_approaches.length + 1) 6
        ∈ (build_report_content inpOneAp).1.requests ∧
      Request.insertText (ts + 1) "Intervention"
        ∈ (build_report_content inpOneAp).1.requests ∧
      ts < ts + 1 ∧
      ts + 1 < ts + ((inpOneAp.actionable_steps.recommended_approaches.length + 1) * 6 * 2 + 1) :=
  ⟨c1_amended.1 inpMin rfl, c1_amended.2 inpOneAp (by simp [inpOneAp])⟩

/-- C3: across a single normally-returning compilation call, the target
    offsets of successively emitted operations are non-decreasing, and
    the final cursor equals the start position 1 plus the sum of every
    emitted operation's consumption (text length including terminator
    per text insertion, 1 per page break, `r*c*2+1` per table). -/
theorem c3_monotone_cursor (inp : Inputs)
    (h : (build_report_content inp).2 = none) :
    List.Chain' (· ≤ ·) ((build_report_content inp).1.requests.map opOffset) ∧
    (build_report_content inp).1.index
      = 1 + ((build_report_content inp).1.requests.map consume).sum := by
  obtain ⟨hp, _, hs, _⟩ := inv_build_report_content inp h
  exact ⟨List.chain'_iff_pairwise.2 hp, hs⟩

/-- C3 witness at the minimal input. -/
theorem c3_monotone_cursor_witness :
    (build_report_content inpMin).2 = none ∧
    (List.Chain' (· ≤ ·) ((build_report_content inpMin).1.requests.map opOffset) ∧
     (build_report_content inpMin).1.index
       = 1 + ((build_report_content inpMin).1.requests.map consume).sum) :=
  ⟨rfl, c3_monotone_cursor inpMin rfl⟩



/-! ## C7: "N/A" fallbacks versus null-field elision -/

/-- Two strings differing at some character position are different. -/
theorem string_ne_of_get?_ne {a b : String} (i : Nat)
    (h : a.data.get? i ≠ b.data.get? i) : a ≠ b :=
  fun e => h (by rw [e])

/-- A character of the left part of an append survives the append. -/
theorem data_get?_append (pre x : String) (i : Nat) (c : Char)
    (hc : pre.data.get? i = some c) : (pre ++ x).data.get? i = some c := by
  have hlen : i < pre.data.length := by
    rcases List.get?_eq_some.1 hc with ⟨h, _⟩
    exact h
  rw [show (pre ++ x).data = pre.data ++ x.data by simp]
  rw [List.get?_append hlen]
  exact hc

/-- Texts whose character at position `i` differs from that of
    `"Date Submitted: " ++ d` are never a Date-Submitted line. -/
theorem ne_dateSub_text (t : String) (i : Nat) (c c' : Char)
    (h1 : t.data.get? i = some c)
    (h2 : ("Date Submitted: " : String).data.get? i = some c')
    (hcc : c ≠ c') : ∀ d, t ≠ "Date Submitted: " ++ d := by
  intro d he
  have h3 := data_get?_append "Date Submitted: " d i c' h2
  have := congrArg (fun s => s.data.get? i) he
  simp only at this
  rw [h1, h3] at this
  exact hcc (Option.some.inj this)

/-- Specialization: paragraph text `(pre ++ x) ++ "\n"` whose first
    character (from `pre`) is not `'D'`. -/
theorem ne_dateSub_head (pre x : String) (c : Char) (h1 : pre.data.get? 0 = some c)
    (hc : c ≠ 'D') : ∀ d, (pre ++ x) ++ "\n" ≠ "Date Submitted: " ++ d :=
  ne_dateSub_text _ 0 c 'D'
    (data_get?_append _ _ _ _ (data_get?_append _ _ _ _ h1)) rfl hc

/-- Specialization: paragraph text `(pre ++ x) ++ "\n"` whose second
    character (from `pre`) is not `'a'` (for texts that share the
    leading `'D'`). -/
theorem ne_dateSub_head1 (pre x : String) (c : Char) (h1 : pre.data.get? 1 = some c)
    (hc : c ≠ 'a') : ∀ d, (pre ++ x) ++ "\n" ≠ "Date Submitted: " ++ d :=
  ne_dateSub_text _ 1 c 'a'
    (data_get?_append _ _ _ _ (data_get?_append _ _ _ _ h1)) rfl hc

/-- No inserted text in the list is a `"Date Submitted: ..."` line. -/
def NoDateLine (reqs : List Request) : Prop :=
  ∀ o txt, Request.insertText o txt ∈ reqs → ∀ d, txt ≠ "Date Submitted: " ++ d

/-- The only `insertText` `add_paragraph` appends carries `t ++ "\n"`. -/
theorem paraOps_insertText {t st : String} {pb : Bool} {i o : Nat} {txt : String}
    (h : Request.insertText o txt ∈ paraOps t st pb i) : txt = t ++ "\n" := by
  unfold paraOps at h
  rcases List.mem_append.1 h with h | h
  · rcases List.mem_append.1 h with h | h
    · split at h <;> simp at h
    · simp at h
      exact h.2
  · split at h <;> simp at h

theorem noDate_add_paragraph (t st : String) (pb : Bool)
    (ht : ∀ d, t ++ "\n" ≠ "Date Submitted: " ++ d) (s : BState)
    (hs : NoDateLine s.requests) : NoDateLine (add_paragraph t st 0 pb s).requests := by
  intro o txt hmem d
  rw [add_paragraph_requests] at hmem
  rcases List.mem_append.1 hmem with h | h
  · exact hs o txt h d
  · have := paraOps_insertText h
    subst this
    exact ht d

theorem noDate_optPara (v : Option String) (rend : String → String)
    (hr : ∀ x d, rend x ++ "\n" ≠ "Date Submitted: " ++ d) (s : BState)
    (hs : NoDateLine s.requests) : NoDateLine (optPara v rend s).requests := by
  cases v with
  | none => exact hs
  | some x => exact noDate_add_paragraph _ _ _ (hr x) s hs

theorem noDate_bulletList (l : List String) (s : BState)
    (hs : NoDateLine s.requests) : NoDateLine (bulletList l s).requests := by
  induction l generalizing s with
  | nil => simpa [bulletList] using hs
  | cons item rest ih =>
    have h1 := noDate_add_paragraph ("• " ++ item) "NORMAL_TEXT" false
      (ne_dateSub_head "• " item '•' rfl (by decide)) s hs
    have : bulletList (item :: rest) s
        = bulletList rest (add_paragraph ("• " ++ item) "NORMAL_TEXT" 0 false s) := by
      simp [bulletList]
    rw [this]
    exact ih _ h1

theorem noDate_prioritiesBlock (v : Option (List String)) (s : BState)
    (hs : NoDateLine s.requests) : NoDateLine (prioritiesBlock v s).requests := by
  cases v with
  | none => exact hs
  | some l =>
    by_cases hp : l.isEmpty
    · simpa [prioritiesBlock, hp] using hs
    · simp only [prioritiesBlock, if_neg hp]
      apply noDate_bulletList
      apply noDate_add_paragraph _ _ _
        (ne_dateSub_text ("Top Family Priorities:" ++ "\n") 0 'T' 'D' rfl rfl (by decide))
      apply noDate_add_paragraph _ _ _
        (ne_dateSub_text ("" ++ "\n") 0 '\n' 'D' rfl rfl (by decide))
      exact hs

/-! Membership preservation, for locating the Child's-Age line. -/

theorem mem_add_paragraph (t st : String) (pb : Bool) (s : BState) (r : Request)
    (h : r ∈ s.requests) : r ∈ (add_paragraph t st 0 pb s).requests := by
  rw [add_paragraph_requests]
  exact List.mem_append_left _ h

theorem self_mem_add_paragraph (t st : String) (pb : Bool) (s : BState) :
    Request.insertText (s.index + (if pb then 1 else 0)) (t ++ "\n")
      ∈ (add_paragraph t st 0 pb s).requests := by
  rw [add_paragraph_requests]
  apply List.mem_append_right
  simp [paraOps]

theorem mem_bulletList (l : List String) (s : BState) (r : Request)
    (h : r ∈ s.requests) : r ∈ (bulletList l s).requests := by
  induction l generalizing s with
  | nil => simpa [bulletList] using h
  | cons a rest ih =>
    have h1 := mem_add_paragraph ("• " ++ a) "NORMAL_TEXT" false s r h
    have : bulletList (a :: rest) s
        = bulletList rest (add_paragraph ("• " ++ a) "NORMAL_TEXT" 0 false s) := by
      simp [bulletList]
    rw [this]
    exact ih _ h1

theorem mem_prioritiesBlock (v : Option (List String)) (s : BState) (r : Request)
    (h : r ∈ s.requests) : r ∈ (prioritiesBlock v s).requests := by
  cases v with
  | none => exact h
  | some l =>
    by_cases hp : l.isEmpty
    · simpa [prioritiesBlock, hp] using h
    · simp only [prioritiesBlock, if_neg hp]
      exact mem_bulletList _ _ _
        (mem_add_paragraph _ _ _ _ _ (mem_add_paragraph _ _ _ _ _ h))

set_option maxRecDepth 8000 in
/-- C7 counterexample: at the minimal input (all patient fields absent)
    the builder emits the fallback line `"Child's Age: N/A"` instead of
    omitting the paragraph — the claim that no emitted operation ever
    contains a `"field: N/A"` fallback for absent data is false. -/
theorem c7_counterexample :
    inpMin.patient_info.patient_age = none ∧ inpMin.patient_info.age = none ∧
    Request.insertText 610 "Child's Age: N/A\n"
      ∈ (build_report_content inpMin).1.requests :=
  ⟨rfl, rfl, by decide⟩

/-- C7 amended: elision holds for some fields but not others.  When
    `date_submitted` is absent the demographics section emits no
    `"Date Submitted: ..."` line at all (the paragraph is omitted), but
    when the age fields are absent it does emit the fallback paragraph
    `"Child's Age: N/A"`. -/
theorem c7_amended :
    (∀ (pi : PatientInfo) (s : BState), pi.date_submitted = none →
      NoDateLine s.requests → NoDateLine (demographicsSection pi s).requests) ∧
    (∀ (pi : PatientInfo) (s : BState),
      truthyStr pi.patient_age = none → pi.age = none →
      ∃ o, Request.insertText o "Child's Age: N/A\n"
            ∈ (demographicsSection pi s).requests) := by
  constructor
  · intro pi s hdate hs
    unfold demographicsSection
    apply noDate_prioritiesBlock
    apply noDate_add_paragraph _ _ _
      (ne_dateSub_head1 "Diagnosis Status: " _ 'i' rfl (by decide))
    apply noDate_add_paragraph _ _ _
      (ne_dateSub_head "Sex: " _ 'S' rfl (by decide))
    apply noDate_add_paragraph _ _ _
      (ne_dateSub_head "Child's Age: " _ 'C' rfl (by decide))
    apply noDate_add_paragraph _ _ _
      (ne_dateSub_text ("" ++ "\n") 0 '\n' 'D' rfl rfl (by decide))
    apply noDate_optPara _ _
      (fun z => ne_dateSub_head "Zipcode: " z 'Z' rfl (by decide))
    apply noDate_optPara _ _
      (fun e => ne_dateSub_head "Email: " e 'E' rfl (by decide))
    apply noDate_optPara _ _
      (fun p => ne_dateSub_head "Parent Name: " p 'P' rfl (by decide))
    rw [hdate]
    show NoDateLine (optPara none _ _).requests
    apply noDate_add_paragraph _ _ _
      (ne_dateSub_text ("Your Information" ++ "\n") 0 'Y' 'D' rfl rfl (by decide))
    exact hs
  · intro pi s hage1 hage2
    have hAge : orStr pi.patient_age (pi.age.getD "N/A") = "N/A" := by
      simp [orStr, hage1, hage2]
    simp only [demographicsSection]
    rw [hAge]
    exact ⟨_, mem_prioritiesBlock _ _ _ (mem_add_paragraph _ _ _ _ _
      (mem_add_paragraph _ _ _ _ _
        (self_mem_add_paragraph ("Child's Age: " ++ "N/A") "NORMAL_TEXT" false _)))⟩

/-- C7 amended witness: both parts at the all-absent patient info. -/
theorem c7_amended_witness :
    NoDateLine (demographicsSection piNone initialState).requests ∧
    ∃ o, Request.insertText o "Child's Age: N/A\n"
          ∈ (demographicsSection piNone initialState).requests :=
  ⟨c7_amended.1 piNone initialState rfl
      (by intro o txt hmem d; simp [initialState] at hmem),
   c7_amended.2 piNone initialState rfl rfl⟩



/-! ## C8: truncation machinery -/

theorem styleCount_append (name : String) (l1 l2 : List Request) :
    styleCount name (l1 ++ l2) = styleCount name l1 + styleCount name l2 :=
  List.countP_append _ _ _

/-- A paragraph styled with the counted style adds one. -/
theorem styleCount_para_self (name t : String) (pb : Bool) (s : BState)
    (hname : name ≠ "NORMAL_TEXT") :
    styleCount name (add_paragraph t name 0 pb s).requests
      = styleCount name s.requests + 1 := by
  rw [add_paragraph_requests, styleCount_append]
  have : styleCount name (paraOps t name pb s.index) = 1 := by
    cases pb <;> simp [paraOps, styleCount, hname]
  omega

/-- A paragraph with any other style adds none. -/
theorem styleCount_para_other (name t st : String) (pb : Bool) (s : BState)
    (hst : st ≠ name) :
    styleCount name (add_paragraph t st 0 pb s).requests
      = styleCount name s.requests := by
  rw [add_paragraph_requests, styleCount_append]
  have : styleCount name (paraOps t st pb s.index) = 0 := by
    by_cases hN : st = "NORMAL_TEXT" <;> cases pb <;>
      simp [paraOps, styleCount, hN, hst]
  omega

theorem styleCount_link (name label url : String) (s : BState) :
    styleCount name (add_link label url s).requests
      = styleCount name s.requests := by
  rw [add_link_requests, styleCount_append]
  simp [linkOps, styleCount]

theorem styleCount_optPara (name : String) (v : Option String)
    (rend : String → String) (s : BState) (hn : "NORMAL_TEXT" ≠ name) :
    styleCount name (optPara v rend s).requests = styleCount name s.requests := by
  cases v with
  | none => rfl
  | some x => exact styleCount_para_other name _ _ _ _ hn

theorem styleCount_optLink (name label : String) (v : Option String) (s : BState) :
    styleCount name (optLink label v s).requests = styleCount name s.requests := by
  cases v with
  | none => rfl
  | some u => exact styleCount_link name _ _ _

theorem styleCount_foldl_zero {α : Type} (name : String) (f : BState → α → BState)
    (hf : ∀ a s, styleCount name (f s a).requests = styleCount name s.requests)
    (l : List α) (s : BState) :
    styleCount name (l.foldl f s).requests = styleCount name s.requests := by
  induction l generalizing s with
  | nil => rfl
  | cons a rest ih =>
    have : (a :: rest).foldl f s = rest.foldl f (f s a) := rfl
    rw [this, ih, hf]

theorem styleCount_foldl_one {α : Type} (name : String) (f : BState → α → BState)
    (hf : ∀ a s, styleCount name (f s a).requests = styleCount name s.requests + 1)
    (l : List α) (s : BState) :
    styleCount name (l.foldl f s).requests
      = styleCount name s.requests + l.length := by
  induction l generalizing s with
  | nil => rfl
  | cons a rest ih =>
    have h0 : (a :: rest).foldl f s = rest.foldl f (f s a) := rfl
    rw [h0, ih, hf, List.length_cons]
    omega

theorem styleCount_bulletList (name : String) (l : List String) (s : BState)
    (hn : "NORMAL_TEXT" ≠ name) :
    styleCount name (bulletList l s).requests = styleCount name s.requests := by
  unfold bulletList
  exact styleCount_foldl_zero name _
    (fun item s => styleCount_para_other name _ _ _ _ hn) l s

theorem styleCount_testEntry (name : String) (t : TestRec) (s : BState)
    (hn : "NORMAL_TEXT" ≠ name) :
    styleCount name (testEntry t s).requests = styleCount name s.requests := by
  unfold testEntry
  rw [styleCount_optLink, styleCount_para_other name _ _ _ _ hn]

theorem styleCount_talkingPointsBlock (name : String) (tp : List String) (s : BState)
    (h4 : "HEADING_4" ≠ name) (hn : "NORMAL_TEXT" ≠ name) :
    styleCount name (talkingPointsBlock tp s).requests = styleCount name s.requests := by
  unfold talkingPointsBlock
  split
  · rfl
  · rw [styleCount_bulletList name _ _ hn, styleCount_para_other name _ _ _ _ h4]

theorem styleCount_testsBlock (name : String) (tests : List TestRec) (s : BState)
    (h4 : "HEADING_4" ≠ name) (hn : "NORMAL_TEXT" ≠ name) :
    styleCount name (testsBlock tests s).requests = styleCount name s.requests := by
  unfold testsBlock
  split
  · rfl
  · rw [styleCount_foldl_zero name _ (fun t s => styleCount_testEntry name t s hn),
      styleCount_para_other name _ _ _ _ h4]

/-- Each hypothesis entry contributes exactly one `HEADING_3` title. -/
theorem styleCount_hypEntry (i : Nat) (hyp : Hyp) (s : BState) :
    styleCount "HEADING_3" (hypEntry i hyp s).requests
      = styleCount "HEADING_3" s.requests + 1 := by
  unfold hypEntry
  rw [styleCount_para_other "HEADING_3" _ "NORMAL_TEXT" _ _ (by decide),
    styleCount_testsBlock "HEADING_3" _ _ (by decide) (by decide),
    styleCount_talkingPointsBlock "HEADING_3" _ _ (by decide) (by decide),
    styleCount_para_other "HEADING_3" _ "NORMAL_TEXT" _ _ (by decide),
    styleCount_para_self "HEADING_3" _ _ _ (by decide)]

/-- Each provider entry contributes exactly one `HEADING_5` name line. -/
theorem styleCount_pedsEntry (i : Nat) (p : Provider) (s : BState) :
    styleCount "HEADING_5" (pedsEntry i p s).requests
      = styleCount "HEADING_5" s.requests + 1 := by
  unfold pedsEntry
  rw [styleCount_para_other "HEADING_5" _ "NORMAL_TEXT" _ _ (by decide)]
  split
  · rw [styleCount_optLink, styleCount_optPara "HEADING_5" _ _ _ (by decide),
      styleCount_para_other "HEADING_5" _ "NORMAL_TEXT" _ _ (by decide),
      styleCount_optPara "HEADING_5" _ _ _ (by decide),
      styleCount_optPara "HEADING_5" _ _ _ (by decide),
      styleCount_para_self "HEADING_5" _ _ _ (by decide)]
  · rw [styleCount_para_other "HEADING_5" _ "NORMAL_TEXT" _ _ (by decide),
      styleCount_optLink, styleCount_optPara "HEADING_5" _ _ _ (by decide),
      styleCount_para_other "HEADING_5" _ "NORMAL_TEXT" _ _ (by decide),
      styleCount_optPara "HEADING_5" _ _ _ (by decide),
      styleCount_optPara "HEADING_5" _ _ _ (by decide),
      styleCount_para_self "HEADING_5" _ _ _ (by decide)]

theorem styleCount_providerEntry (i : Nat) (p : Provider) (s : BState) :
    styleCount "HEADING_5" (providerEntry i p s).requests
      = styleCount "HEADING_5" s.requests + 1 := by
  unfold providerEntry
  split
  · rw [styleCount_optLink, styleCount_optPara "HEADING_5" _ _ _ (by decide),
      styleCount_para_other "HEADING_5" _ "NORMAL_TEXT" _ _ (by decide),
      styleCount_optPara "HEADING_5" _ _ _ (by decide),
      styleCount_optPara "HEADING_5" _ _ _ (by decide),
      styleCount_para_self "HEADING_5" _ _ _ (by decide)]
  · rw [styleCount_para_other "HEADING_5" _ "NORMAL_TEXT" _ _ (by decide),
      styleCount_optLink, styleCount_optPara "HEADING_5" _ _ _ (by decide),
      styleCount_para_other "HEADING_5" _ "NORMAL_TEXT" _ _ (by decide),
      styleCount_optPara "HEADING_5" _ _ _ (by decide),
      styleCount_optPara "HEADING_5" _ _ _ (by decide),
      styleCount_para_self "HEADING_5" _ _ _ (by decide)]

/-- A provider category renders one `HEADING_5` entry per record — all
    of them, without truncation. -/
theorem styleCount_providerCategory (title : String)
    (entry : Nat → Provider → BState → BState)
    (hentry : ∀ i p s, styleCount "HEADING_5" (entry i p s).requests
      = styleCount "HEADING_5" s.requests + 1)
    (l : List Provider) (s : BState) :
    styleCount "HEADING_5" (providerCategory title entry l s).requests
      = styleCount "HEADING_5" s.requests + l.length := by
  unfold providerCategory
  split
  · next hemp =>
    rw [List.isEmpty_iff.1 hemp]
    rfl
  · rw [styleCount_foldl_one "HEADING_5" (fun s p => entry p.1 p.2 s)
      (fun p s => hentry p.1 p.2 s) (List.enumFrom 1 l) _,
      styleCount_para_other "HEADING_5" _ "HEADING_4" _ _ (by decide)]
    simp

set_option maxRecDepth 100000 in
set_option maxHeartbeats 2000000 in
/-- C8 counterexample: with six pediatrician records upstream, the
    compiled request list contains six `HEADING_5` provider entries —
    more than the claimed five-per-category cap. -/
theorem c8_counterexample :
    styleCount "HEADING_5" (build_report_content inpSixPeds).1.requests = 6 := by
  decide

set_option maxHeartbeats 1000000 in
/-- C8 amended: only the hypotheses list is truncated (to its first 3
    entries).  Interventions are not truncated — the table is created
    with one data row per approach (`len(approaches)+1` rows) — and
    providers are not truncated: each category renders exactly one
    `HEADING_5` entry per upstream record. -/
theorem c8_amended :
    (∀ (l : List Hyp) (s : BState),
      styleCount "HEADING_3" (hypothesesLoop l s).requests
        = styleCount "HEADING_3" s.requests + min 3 l.length) ∧
    (∀ (aps : List Approach) (s : BState),
      Request.insertTable s.index (aps.length + 1) 6 ∈ (tablePart aps s).requests) ∧
    (∀ (title : String) (l : List Provider) (s : BState),
      styleCount "HEADING_5" (providerCategory title pedsEntry l s).requests
        = styleCount "HEADING_5" s.requests + l.length) ∧
    (∀ (title : String) (l : List Provider) (s : BState),
      styleCount "HEADING_5" (providerCategory title providerEntry l s).requests
        = styleCount "HEADING_5" s.requests + l.length) := by
  refine ⟨?_, ?_, ?_, ?_⟩
  · intro l s
    have h := styleCount_foldl_one "HEADING_3" (fun s p => hypEntry p.1 p.2 s)
      (fun p s => styleCount_hypEntry p.1 p.2 s) (List.enumFrom 1 (l.take 3)) s
    unfold hypothesesLoop
    simp only [h]
    simp
  · intro aps s
    simp [tablePart]
  · exact fun title l s => styleCount_providerCategory title pedsEntry
      styleCount_pedsEntry l s
  · exact fun title l s => styleCount_providerCategory title providerEntry
      styleCount_providerEntry l s


end Kindroot
